import Mathlib

/-!
# SealProof contracts: shallow embedding and verification

A shallow embedding in Lean 4 of the verification and consensus layer of the
SealProof Move contracts (`truth_oracle.move`, `verification_network.move`,
`provenance_registry.move`, `access_control.move`), together with theorems
settling the spec's testable properties against the code.

Modelling conventions:
* `u64` values become `Nat` (Move aborts on overflow/underflow; the operations
  modelled here only subtract under explicit guards, so `Nat` is faithful).
* Addresses and object ids become `Nat`.
* `sui::table::Table<address, V>` becomes an association list
  `List (Nat × V)` with a `lookupKey` function mirroring `table::borrow` /
  `table::contains`.
* Aborting entry functions become `Except Err ...`, with one error constructor
  per Move error code, checked in the source's assert order.
* Event emission and object transfer are side effects outside the state that
  the claims concern; they are dropped.
-/

instance {ε α : Type} [DecidableEq ε] [DecidableEq α] :
    DecidableEq (Except ε α) := fun x y =>
  match x, y with
  | .error e, .error e' =>
    if h : e = e' then .isTrue (by rw [h])
    else .isFalse (by intro hc; cases hc; exact h rfl)
  | .ok a, .ok a' =>
    if h : a = a' then .isTrue (by rw [h])
    else .isFalse (by intro hc; cases hc; exact h rfl)
  | .error _, .ok _ => .isFalse (by intro hc; cases hc)
  | .ok _, .error _ => .isFalse (by intro hc; cases hc)

/-- Association-list lookup, mirroring `sui::table::borrow` on an
`address`-keyed table. -/
def lookupKey {α : Type} : List (Nat × α) → Nat → Option α
  | [], _ => none
  | (k, v) :: rest, a => if k = a then some v else lookupKey rest a

/-- Association-list membership, mirroring `sui::table::contains`. -/
def containsKey {α : Type} (l : List (Nat × α)) (a : Nat) : Bool :=
  (lookupKey l a).isSome

theorem lookupKey_none_not_mem {α : Type} (l : List (Nat × α)) (a : Nat)
    (h : lookupKey l a = none) : a ∉ l.map Prod.fst := by
  induction l with
  | nil => simp
  | cons p rest ih =>
    simp only [lookupKey] at h
    by_cases hk : p.1 = a
    · rw [if_pos hk] at h; exact absurd h (by simp)
    · rw [if_neg hk] at h
      simp only [List.map_cons, List.mem_cons]
      rintro (rfl | hmem)
      · exact hk rfl
      · exact ih h hmem

namespace TruthOracle

/-! ## `truth_oracle.move` -/

def MIN_ORACLES_FOR_CONSENSUS : Nat := 3
def CONSENSUS_THRESHOLD : Nat := 66
def REPUTATION_DECAY_PERIOD_MS : Nat := 2592000000
def TIME_WEIGHT_FACTOR : Nat := 10
def MAX_CONFIDENCE : Nat := 100

/-- `AIOracle` (the fields the consensus logic reads and writes). -/
structure AIOracle where
  addr : Nat
  last_active : Nat
  total_submissions : Nat
  accurate_submissions : Nat
  reputation_score : Nat
  is_active : Bool
deriving Repr, DecidableEq

/-- `OracleSubmission` (minus the `model_version` string). -/
structure OracleSubmission where
  oracle : Nat
  is_ai_generated : Bool
  confidence : Nat
  timestamp : Nat
  weight : Nat
deriving Repr, DecidableEq

/-- `DetectionResult` (minus object id and content id, which the consensus
logic never branches on). -/
structure DetectionResult where
  submissions : List (Nat × OracleSubmission)
  submission_count : Nat
  created_at : Nat
  finalized_at : Nat
  is_finalized : Bool
  consensus_reached : Bool
  final_verdict : Bool
  final_confidence : Nat
  total_ai_votes : Nat
  total_human_votes : Nat
deriving Repr, DecidableEq

/-- One error constructor per Move abort code of `truth_oracle.move`. -/
inductive OracleErr where
  | NotAuthorized
  | InvalidConfidence
  | AlreadySubmitted
  | InsufficientSubmissions
  | ConsensusNotReached
  | OracleNotRegistered
  | EmergencyLocked
deriving Repr, DecidableEq

/-- The weighted AI percentage computed inside `try_finalize_consensus`. -/
def ai_percentage (r : DetectionResult) : Nat :=
  r.total_ai_votes * 100 / (r.total_ai_votes + r.total_human_votes)

/-- The weighted human percentage computed inside `try_finalize_consensus`. -/
def human_percentage (r : DetectionResult) : Nat :=
  r.total_human_votes * 100 / (r.total_ai_votes + r.total_human_votes)

/-- `try_finalize_consensus`: finalize when either side's integer percentage
reaches `CONSENSUS_THRESHOLD`. -/
def try_finalize_consensus (r : DetectionResult) (timestamp : Nat) :
    DetectionResult :=
  let total_votes := r.total_ai_votes + r.total_human_votes
  if total_votes = 0 then r
  else
    let aiP := r.total_ai_votes * 100 / total_votes
    let humanP := r.total_human_votes * 100 / total_votes
    if CONSENSUS_THRESHOLD ≤ aiP ∨ CONSENSUS_THRESHOLD ≤ humanP then
      { r with
        is_finalized := true
        consensus_reached := true
        final_verdict := decide (CONSENSUS_THRESHOLD ≤ aiP)
        final_confidence := if CONSENSUS_THRESHOLD ≤ aiP then aiP else humanP
        finalized_at := timestamp }
    else r

/-- `apply_reputation_decay`: lazy decay on next submission. -/
def apply_reputation_decay (o : AIOracle) (current_time : Nat) : AIOracle :=
  let time_since_active := current_time - o.last_active
  if REPUTATION_DECAY_PERIOD_MS < time_since_active then
    let decay_periods := time_since_active / REPUTATION_DECAY_PERIOD_MS
    let decay_amount := decay_periods * TIME_WEIGHT_FACTOR
    if decay_amount < o.reputation_score then
      { o with reputation_score := o.reputation_score - decay_amount }
    else
      { o with reputation_score := 0 }
  else o

/-- Result state of a successful `submit_detection`. -/
structure SubmitOut where
  oracle : AIOracle
  result : DetectionResult
deriving Repr, DecidableEq

/-- `submit_detection`, checks in the source's assert order; on success the
submission is recorded with weight = post-decay reputation, and consensus is
attempted once `submission_count` reaches the quorum. -/
def submit_detection (emergency_paused : Bool) (sender : Nat)
    (oracle : AIOracle) (r : DetectionResult) (is_ai_generated : Bool)
    (confidence : Nat) (timestamp : Nat) : Except OracleErr SubmitOut :=
  if emergency_paused then .error .EmergencyLocked
  else if sender ≠ oracle.addr then .error .NotAuthorized
  else if ¬ oracle.is_active then .error .OracleNotRegistered
  else if r.is_finalized then .error .ConsensusNotReached
  else if containsKey r.submissions oracle.addr then .error .AlreadySubmitted
  else if ¬ confidence ≤ MAX_CONFIDENCE then .error .InvalidConfidence
  else
    let o1 := apply_reputation_decay oracle timestamp
    let weight := o1.reputation_score
    let sub : OracleSubmission :=
      { oracle := o1.addr, is_ai_generated, confidence, timestamp, weight }
    let r1 : DetectionResult :=
      { r with
        submissions := (o1.addr, sub) :: r.submissions
        submission_count := r.submission_count + 1
        total_ai_votes :=
          if is_ai_generated then r.total_ai_votes + weight
          else r.total_ai_votes
        total_human_votes :=
          if is_ai_generated then r.total_human_votes
          else r.total_human_votes + weight }
    let o2 : AIOracle :=
      { o1 with
        total_submissions := o1.total_submissions + 1
        last_active := timestamp }
    let r2 :=
      if MIN_ORACLES_FOR_CONSENSUS ≤ r1.submission_count then
        try_finalize_consensus r1 timestamp
      else r1
    .ok { oracle := o2, result := r2 }

/-- With floor division, the two percentages always sum to 99 or 100. -/
theorem pct_sum_bounds (a h : Nat) (ht : 0 < a + h) :
    99 ≤ a * 100 / (a + h) + h * 100 / (a + h) ∧
      a * 100 / (a + h) + h * 100 / (a + h) ≤ 100 := by
  have key : (a * 100 + h * 100) / (a + h)
      = a * 100 / (a + h) + h * 100 / (a + h)
        + if a + h ≤ a * 100 % (a + h) + h * 100 % (a + h) then 1 else 0 :=
    Nat.add_div ht
  have htot : (a * 100 + h * 100) / (a + h) = 100 := by
    rw [← Nat.add_mul, Nat.mul_div_cancel_left 100 ht]
  rw [htot] at key
  split at key <;> omega

/-- Unfolds `try_finalize_consensus` into a single branch on the two
percentage thresholds, assuming positive total weighted votes. -/
theorem try_finalize_eq (r : DetectionResult) (t : Nat)
    (hpos : 0 < r.total_ai_votes + r.total_human_votes) :
    try_finalize_consensus r t =
      if CONSENSUS_THRESHOLD ≤ ai_percentage r
          ∨ CONSENSUS_THRESHOLD ≤ human_percentage r then
        { r with
          is_finalized := true
          consensus_reached := true
          final_verdict := decide (CONSENSUS_THRESHOLD ≤ ai_percentage r)
          final_confidence :=
            if CONSENSUS_THRESHOLD ≤ ai_percentage r then ai_percentage r
            else human_percentage r
          finalized_at := t }
      else r := by
  simp only [try_finalize_consensus, ai_percentage, human_percentage]
  rw [if_neg (by omega)]

/-- A concrete detection state with three submissions of weights 10 (AI),
10 (human), 10 (human): the integer percentages are 33 and 66. -/
def c1_cex : DetectionResult :=
  { submissions :=
      [(1, { oracle := 1, is_ai_generated := true, confidence := 80,
             timestamp := 5, weight := 10 }),
       (2, { oracle := 2, is_ai_generated := false, confidence := 80,
             timestamp := 6, weight := 10 }),
       (3, { oracle := 3, is_ai_generated := false, confidence := 80,
             timestamp := 7, weight := 10 })]
    submission_count := 3
    created_at := 0
    finalized_at := 0
    is_finalized := false
    consensus_reached := false
    final_verdict := false
    final_confidence := 0
    total_ai_votes := 10
    total_human_votes := 20 }

/-- C1 counterexample: on a DetectionResult with 3 submissions and positive
total weighted votes (AI weight 10, human weight 20), the code's integer
percentages are 33 and 66, so `aiPct + humanPct = 99 ≠ 100`: the claim's
conjunct "aiPct + humanPct == 100 whenever total weighted votes > 0" is
false. -/
theorem C1_counterexample :
    MIN_ORACLES_FOR_CONSENSUS ≤ c1_cex.submission_count
      ∧ 0 < c1_cex.total_ai_votes + c1_cex.total_human_votes
      ∧ ai_percentage c1_cex + human_percentage c1_cex ≠ 100 := by
  decide

/-- C1 (amended): for every DetectionResult with at least 3 submissions and
positive total weighted votes, `try_finalize_consensus` reaches consensus
(sets `is_finalized` and `consensus_reached`) iff
`max aiPct humanPct ≥ 66`; in that case `final_verdict` is the AI side and
`final_confidence` is the winning percentage; and `aiPct + humanPct` is 99 or
100 (not always exactly 100, by integer division). -/
theorem C1_consensus_iff_threshold (r : DetectionResult) (t : Nat)
    (hfin : r.is_finalized = false) (hcons : r.consensus_reached = false)
    (hsub : MIN_ORACLES_FOR_CONSENSUS ≤ r.submission_count)
    (hpos : 0 < r.total_ai_votes + r.total_human_votes) :
    ((try_finalize_consensus r t).is_finalized = true
        ∧ (try_finalize_consensus r t).consensus_reached = true
      ↔ 66 ≤ max (ai_percentage r) (human_percentage r))
    ∧ (66 ≤ max (ai_percentage r) (human_percentage r) →
        (try_finalize_consensus r t).final_verdict
            = decide (66 ≤ ai_percentage r)
          ∧ (try_finalize_consensus r t).final_confidence
            = max (ai_percentage r) (human_percentage r))
    ∧ 99 ≤ ai_percentage r + human_percentage r
    ∧ ai_percentage r + human_percentage r ≤ 100 := by
  have hsum : 99 ≤ ai_percentage r + human_percentage r
      ∧ ai_percentage r + human_percentage r ≤ 100 := by
    have := pct_sum_bounds r.total_ai_votes r.total_human_votes hpos
    simpa [ai_percentage, human_percentage] using this
  have hmax_iff : 66 ≤ max (ai_percentage r) (human_percentage r)
      ↔ (CONSENSUS_THRESHOLD ≤ ai_percentage r
          ∨ CONSENSUS_THRESHOLD ≤ human_percentage r) := by
    simp only [CONSENSUS_THRESHOLD]
    constructor
    · intro hm
      rcases Nat.le_total (ai_percentage r) (human_percentage r) with hle | hle
      · rw [Nat.max_eq_right hle] at hm; exact Or.inr hm
      · rw [Nat.max_eq_left hle] at hm; exact Or.inl hm
    · rintro (hx | hx)
      · exact le_trans hx (Nat.le_max_left _ _)
      · exact le_trans hx (Nat.le_max_right _ _)
  rw [try_finalize_eq r t hpos]
  by_cases hdisj : CONSENSUS_THRESHOLD ≤ ai_percentage r
      ∨ CONSENSUS_THRESHOLD ≤ human_percentage r
  · rw [if_pos hdisj]
    refine ⟨Iff.intro (fun _ => hmax_iff.mpr hdisj) (fun _ => ⟨rfl, rfl⟩),
      fun _ => ⟨rfl, ?_⟩, hsum.1, hsum.2⟩
    have h100 := hsum.2
    by_cases hai : CONSENSUS_THRESHOLD ≤ ai_percentage r
    · rw [if_pos hai]
      have hle : human_percentage r ≤ ai_percentage r := by
        simp only [CONSENSUS_THRESHOLD] at hai; omega
      exact (Nat.max_eq_left hle).symm
    · rw [if_neg hai]
      rcases hdisj with hx | hx
      · exact absurd hx hai
      · have hle : ai_percentage r ≤ human_percentage r := by
          simp only [CONSENSUS_THRESHOLD] at hx hai; omega
        exact (Nat.max_eq_right hle).symm
  · rw [if_neg hdisj]
    refine ⟨Iff.intro ?_ (fun hm => absurd (hmax_iff.mp hm) hdisj),
      fun hm => absurd (hmax_iff.mp hm) hdisj, hsum.1, hsum.2⟩
    rintro ⟨h1, _⟩
    rw [hfin] at h1
    exact absurd h1 (by simp)

/-- C1 witness: concrete instantiation of the amended consensus theorem. -/
theorem C1_witness :
    (try_finalize_consensus c1_cex 9).is_finalized = true
      ∧ (try_finalize_consensus c1_cex 9).consensus_reached = true := by
  have h := C1_consensus_iff_threshold c1_cex 9 rfl rfl (by decide) (by decide)
  exact h.1.mpr (by decide)

/-- A freshly registered oracle at address `a` (reputation 500, as
`register_oracle` creates it), last active at time 0. -/
def freshOracle (a : Nat) : AIOracle :=
  { addr := a, last_active := 0, total_submissions := 0,
    accurate_submissions := 0, reputation_score := 500, is_active := true }

/-- A freshly opened detection result (as `create_detection_result` creates
it). -/
def freshResult : DetectionResult :=
  { submissions := [], submission_count := 0, created_at := 0,
    finalized_at := 0, is_finalized := false, consensus_reached := false,
    final_verdict := false, final_confidence := 0, total_ai_votes := 0,
    total_human_votes := 0 }

/-- The detection state after oracles 1, 2, 3 (each reputation 500) submit
(AI, 85), (AI, 90), (Human, 60), chaining `submit_detection`. -/
def c5_final : Option DetectionResult :=
  match submit_detection false 1 (freshOracle 1) freshResult true 85 0 with
  | .error _ => none
  | .ok s1 =>
    match submit_detection false 2 (freshOracle 2) s1.result true 90 0 with
    | .error _ => none
    | .ok s2 =>
      match submit_detection false 3 (freshOracle 3) s2.result false 60 0 with
      | .error _ => none
      | .ok s3 => some s3.result

/-- C5: with 3 equal-weight (500) oracles voting (AI, AI, Human) at
confidences (85, 90, 60), all three submissions succeed, consensus is
reached with `final_verdict = true`, and `final_confidence = 66`, which is
the AI side's integer percentage 2/3 × 100 = 1000·100/1500. -/
theorem C5_example :
    c5_final.map
        (fun r => (r.consensus_reached, r.final_verdict, r.final_confidence))
      = some (true, true, 66)
    ∧ (66 : Nat) = 2 * 100 / 3
    ∧ (66 : Nat) = 1000 * 100 / 1500 := by
  decide

end TruthOracle

namespace VerificationNetwork

/-! ## `verification_network.move` -/

def MIN_STAKE : Nat := 1000000000
def REWARD_POOL_PERCENTAGE : Nat := 80
def SLASH_PERCENTAGE : Nat := 10
def VOTING_PERIOD_MS : Nat := 86400000

/-- `Verifier` (the fields the voting and reward logic reads and writes;
the `stake : Balance<SUI>` is its value). -/
structure Verifier where
  addr : Nat
  stake : Nat
  reputation_score : Nat
  total_verifications : Nat
  successful_verifications : Nat
  last_active : Nat
  is_active : Bool
deriving Repr, DecidableEq

/-- `Vote`. -/
structure Vote where
  voter : Nat
  vote : Bool
  voting_power : Nat
  timestamp : Nat
deriving Repr, DecidableEq

/-- `VerificationTask` (minus object id and content id). -/
structure VerificationTask where
  requester : Nat
  created_at : Nat
  voting_ends_at : Nat
  votes_for : Nat
  votes_against : Nat
  total_voting_power : Nat
  voters : List (Nat × Vote)
  is_finalized : Bool
  result : Bool
  reward_amount : Nat
deriving Repr, DecidableEq

/-- `VerificationNetwork` shared state (the `reward_pool : Balance<SUI>` is
its value; `verifier_index` keeps only the registered addresses). -/
structure Network where
  verifier_count : Nat
  total_stake : Nat
  reward_pool : Nat
  verifier_index : List Nat
deriving Repr, DecidableEq

/-- One error constructor per Move abort code of
`verification_network.move`. -/
inductive NetErr where
  | NotAuthorized
  | AlreadyRegistered
  | NotRegistered
  | InsufficientStake
  | InvalidVote
  | AlreadyVoted
  | VotingClosed
  | InsufficientReputation
  | InvalidAmount
deriving Repr, DecidableEq

/-- `register_verifier`: duplicate-registration check first, then the
MIN_STAKE check; creates a Verifier at reputation 100. -/
def register_verifier (net : Network) (sender : Nat) (stake_amount : Nat)
    (timestamp : Nat) : Except NetErr (Network × Verifier) :=
  if net.verifier_index.contains sender then .error .AlreadyRegistered
  else if ¬ MIN_STAKE ≤ stake_amount then .error .InsufficientStake
  else
    let v : Verifier :=
      { addr := sender, stake := stake_amount, reputation_score := 100,
        total_verifications := 0, successful_verifications := 0,
        last_active := timestamp, is_active := true }
    .ok ({ net with
            verifier_count := net.verifier_count + 1
            total_stake := net.total_stake + stake_amount
            verifier_index := sender :: net.verifier_index }, v)

/-- `create_verification_task`: positive payment required; 80% of the
payment becomes the task's distributable reward, the whole payment joins the
shared reward pool. -/
def create_verification_task (net : Network) (requester : Nat)
    (payment_amount : Nat) (timestamp : Nat) :
    Except NetErr (Network × VerificationTask) :=
  if ¬ 0 < payment_amount then .error .InvalidAmount
  else
    .ok ({ net with reward_pool := net.reward_pool + payment_amount },
      { requester,
        created_at := timestamp,
        voting_ends_at := timestamp + VOTING_PERIOD_MS,
        votes_for := 0, votes_against := 0, total_voting_power := 0,
        voters := [], is_finalized := false, result := false,
        reward_amount := payment_amount * REWARD_POOL_PERCENTAGE / 100 })

/-- `cast_vote`: checks in the source's assert order; voting power is
`stake × reputation / 1000` and must be positive. -/
def cast_vote (verifier : Verifier) (task : VerificationTask) (vote : Bool)
    (timestamp sender : Nat) : Except NetErr (Verifier × VerificationTask) :=
  if sender ≠ verifier.addr then .error .NotAuthorized
  else if ¬ verifier.is_active then .error .NotRegistered
  else if task.is_finalized then .error .VotingClosed
  else if ¬ timestamp ≤ task.voting_ends_at then .error .VotingClosed
  else if containsKey task.voters verifier.addr then .error .AlreadyVoted
  else
    let voting_power := verifier.stake * verifier.reputation_score / 1000
    if voting_power = 0 then .error .InsufficientStake
    else
      let vr : Vote :=
        { voter := verifier.addr, vote, voting_power, timestamp }
      .ok ({ verifier with last_active := timestamp },
        { task with
            voters := (verifier.addr, vr) :: task.voters
            votes_for :=
              if vote then task.votes_for + voting_power else task.votes_for
            votes_against :=
              if vote then task.votes_against
              else task.votes_against + voting_power
            total_voting_power := task.total_voting_power + voting_power })

/-- `finalize_task`: only after the deadline, idempotent-guarded; result is
the weighted simple majority. -/
def finalize_task (task : VerificationTask) (timestamp : Nat) :
    Except NetErr VerificationTask :=
  if task.is_finalized then .error .VotingClosed
  else if ¬ task.voting_ends_at < timestamp then .error .VotingClosed
  else
    .ok { task with
            result := decide (task.votes_against < task.votes_for)
            is_finalized := true }

/-- `update_reputation`: +10 capped at 1000 on success, −20 floored at 0 on
failure. -/
def update_reputation (v : Verifier) (success : Bool) : Verifier :=
  if success then
    if 1000 < v.reputation_score + 10 then { v with reputation_score := 1000 }
    else { v with reputation_score := v.reputation_score + 10 }
  else
    if v.reputation_score < 20 then { v with reputation_score := 0 }
    else { v with reputation_score := v.reputation_score - 20 }

/-- Result state of a successful `claim_reward`: the new network and
verifier states and the amount actually paid out. -/
structure ClaimOut where
  network : Network
  verifier : Verifier
  payout : Nat
deriving Repr, DecidableEq

/-- `claim_reward`: aborts only on wrong sender, unfinalized task, or no
recorded vote; a majority vote pays `reward_amount × power / total_power`
and bumps reputation only when that reward is positive and the pool covers
it; a minority vote is penalized; `total_verifications` always
increments. -/
def claim_reward (net : Network) (verifier : Verifier)
    (task : VerificationTask) (sender : Nat) : Except NetErr ClaimOut :=
  if sender ≠ verifier.addr then .error .NotAuthorized
  else if ¬ task.is_finalized then .error .VotingClosed
  else
    match lookupKey task.voters verifier.addr with
    | none => .error .NotAuthorized
    | some vote =>
      if vote.vote = task.result then
        let reward :=
          task.reward_amount * vote.voting_power / task.total_voting_power
        if 0 < reward ∧ reward ≤ net.reward_pool then
          let v1 := update_reputation
            { verifier with
                successful_verifications :=
                  verifier.successful_verifications + 1 } true
          .ok { network := { net with reward_pool := net.reward_pool - reward },
                verifier :=
                  { v1 with total_verifications := v1.total_verifications + 1 },
                payout := reward }
        else
          .ok { network := net,
                verifier :=
                  { verifier with
                      total_verifications := verifier.total_verifications + 1 },
                payout := 0 }
      else
        let v1 := update_reputation verifier false
        .ok { network := net,
              verifier :=
                { v1 with total_verifications := v1.total_verifications + 1 },
              payout := 0 }

/-- A network state in which address 1 is already registered. -/
def c8_net : Network :=
  { verifier_count := 1, total_stake := MIN_STAKE, reward_pool := 0,
    verifier_index := [1] }

/-- C8 counterexample: when the sender is already registered, the
duplicate-registration check fires first, so stake < MIN_STAKE does not
fail with `InsufficientStake`, and stake == MIN_STAKE does not succeed. -/
theorem C8_counterexample :
    register_verifier c8_net 1 (MIN_STAKE - 1) 0 = .error .AlreadyRegistered
    ∧ register_verifier c8_net 1 MIN_STAKE 0 = .error .AlreadyRegistered := by
  decide

/-- C8 (amended): for a sender not already registered, registering with
stake strictly below MIN_STAKE always fails with `InsufficientStake`, and
with stake exactly MIN_STAKE always succeeds, creating a Verifier with
reputation 100 (out of 1000). -/
theorem C8_register_verifier (net : Network) (sender stake timestamp : Nat)
    (hnew : net.verifier_index.contains sender = false) :
    (stake < MIN_STAKE →
      register_verifier net sender stake timestamp
        = .error .InsufficientStake)
    ∧ (stake = MIN_STAKE →
      register_verifier net sender stake timestamp
        = .ok ({ net with
                  verifier_count := net.verifier_count + 1
                  total_stake := net.total_stake + stake
                  verifier_index := sender :: net.verifier_index },
               { addr := sender, stake := stake, reputation_score := 100,
                 total_verifications := 0, successful_verifications := 0,
                 last_active := timestamp, is_active := true })) := by
  have hnc : ¬ (net.verifier_index.contains sender = true) := by
    rw [hnew]; simp
  constructor
  · intro hlt
    unfold register_verifier
    rw [if_neg hnc, if_pos (by omega)]
  · intro heq
    unfold register_verifier
    rw [if_neg hnc, if_neg (by omega)]

/-- C8 witness: a fresh sender registering with exactly MIN_STAKE
succeeds and starts at reputation 100. -/
theorem C8_witness :
    register_verifier
        { verifier_count := 0, total_stake := 0, reward_pool := 0,
          verifier_index := [] } 1 MIN_STAKE 0
      = .ok ({ verifier_count := 1, total_stake := MIN_STAKE,
               reward_pool := 0, verifier_index := [1] },
             { addr := 1, stake := MIN_STAKE, reputation_score := 100,
               total_verifications := 0, successful_verifications := 0,
               last_active := 0, is_active := true }) :=
  (C8_register_verifier
    { verifier_count := 0, total_stake := 0, reward_pool := 0,
      verifier_index := [] } 1 MIN_STAKE 0 rfl).2 rfl

/-- C6: for an authorized, active verifier voting on an open task it has
not voted on, `cast_vote` fails with `InsufficientStake` exactly when the
computed power `stake × reputation / 1000` is zero, and on success the
recorded vote carries exactly that power. -/
theorem C6_cast_vote_power (v : Verifier) (task : VerificationTask)
    (b : Bool) (ts s : Nat) (hs : s = v.addr) (hact : v.is_active = true)
    (hopen : task.is_finalized = false) (hddl : ts ≤ task.voting_ends_at)
    (hnv : containsKey task.voters v.addr = false) :
    (cast_vote v task b ts s = .error .InsufficientStake
      ↔ v.stake * v.reputation_score / 1000 = 0)
    ∧ (∀ v' t', cast_vote v task b ts s = .ok (v', t') →
        lookupKey t'.voters v.addr
          = some { voter := v.addr, vote := b,
                   voting_power := v.stake * v.reputation_score / 1000,
                   timestamp := ts }) := by
  subst hs
  unfold cast_vote
  rw [if_neg (by simp), if_neg (by simp [hact]), if_neg (by simp [hopen]),
    if_neg (not_not_intro hddl), if_neg (by simp [hnv])]
  by_cases hp : v.stake * v.reputation_score / 1000 = 0
  · rw [if_pos hp]
    exact ⟨Iff.intro (fun _ => hp) (fun _ => rfl), fun v' t' h => by cases h⟩
  · rw [if_neg hp]
    constructor
    · exact Iff.intro (fun h => by cases h) (fun h => absurd h hp)
    · intro v' t' h
      injection h with h
      injection h with h1 h2
      subst h2
      simp [lookupKey]

/-- A verifier whose nonzero stake times low reputation truncates to zero
voting power. -/
def c6_v : Verifier :=
  { addr := 1, stake := 5, reputation_score := 100, total_verifications := 0,
    successful_verifications := 0, last_active := 0, is_active := true }

/-- An open task with no votes yet. -/
def c6_task : VerificationTask :=
  { requester := 2, created_at := 0, voting_ends_at := VOTING_PERIOD_MS,
    votes_for := 0, votes_against := 0, total_voting_power := 0,
    voters := [], is_finalized := false, result := false,
    reward_amount := 0 }

/-- C6 witness: stake 5 at reputation 100 gives power 5·100/1000 = 0, so
the vote is rejected with `InsufficientStake` despite the nonzero stake. -/
theorem C6_witness :
    cast_vote c6_v c6_task true 0 1 = .error .InsufficientStake :=
  (C6_cast_vote_power c6_v c6_task true 0 1 rfl rfl rfl (by decide)
    rfl).1.mpr (by decide)

/-- The vote-accounting invariant of a task: the weighted tallies account
exactly for the total voting power, and no address occurs twice among the
recorded voters. -/
def TaskInv (t : VerificationTask) : Prop :=
  t.votes_for + t.votes_against = t.total_voting_power
  ∧ (t.voters.map Prod.fst).Nodup

/-- Zero or more successful `cast_vote` steps on a task. -/
inductive VoteSeq : VerificationTask → VerificationTask → Prop where
  | refl (t : VerificationTask) : VoteSeq t t
  | step (t₀ t₁ t₂ : VerificationTask) (v v' : Verifier) (b : Bool)
      (ts s : Nat) (hseq : VoteSeq t₀ t₁)
      (hok : cast_vote v t₁ b ts s = .ok (v', t₂)) : VoteSeq t₀ t₂

theorem cast_vote_ok_inv (v v' : Verifier) (t t' : VerificationTask)
    (b : Bool) (ts s : Nat) (h : cast_vote v t b ts s = .ok (v', t'))
    (hinv : TaskInv t) : TaskInv t' := by
  simp only [cast_vote] at h
  split at h
  · exact absurd h (by simp)
  · split at h
    · exact absurd h (by simp)
    · split at h
      · exact absurd h (by simp)
      · split at h
        · exact absurd h (by simp)
        · split at h
          · exact absurd h (by simp)
          · next hnc =>
            split at h
            · exact absurd h (by simp)
            · injection h with h
              injection h with h1 h2
              subst h2
              obtain ⟨hsum, hnd⟩ := hinv
              constructor
              · cases b <;> simp <;> omega
              · simp only [List.map_cons]
                rw [List.nodup_cons]
                refine ⟨?_, hnd⟩
                have hnone : lookupKey t.voters v.addr = none := by
                  simp only [containsKey] at hnc
                  cases hl : lookupKey t.voters v.addr
                  · rfl
                  · rw [hl] at hnc; simp at hnc
                exact lookupKey_none_not_mem _ _ hnone

/-- C3: after any sequence of successful `cast_vote` operations from a task
satisfying the accounting invariant (as a freshly created task does, with
all tallies zero and no voters), `votes_for + votes_against` equals
`total_voting_power` and no address appears twice among the voters;
moreover a repeat vote by a verifier that already voted fails with
`AlreadyVoted` (once the earlier authorization, activity, finalization and
deadline checks pass). -/
theorem C3_vote_accounting (t₀ t : VerificationTask)
    (h0 : t₀.votes_for + t₀.votes_against = t₀.total_voting_power)
    (h0' : (t₀.voters.map Prod.fst).Nodup)
    (hseq : VoteSeq t₀ t) :
    t.votes_for + t.votes_against = t.total_voting_power
    ∧ (t.voters.map Prod.fst).Nodup
    ∧ (∀ v : Verifier, ∀ b : Bool, ∀ ts s : Nat,
        s = v.addr → v.is_active = true → t.is_finalized = false →
        ts ≤ t.voting_ends_at → containsKey t.voters v.addr = true →
        cast_vote v t b ts s = .error .AlreadyVoted) := by
  have hinv : TaskInv t := by
    induction hseq with
    | refl => exact ⟨h0, h0'⟩
    | step t₁ t₂ v v' b ts s hseq hok ih =>
        exact cast_vote_ok_inv v v' t₁ t₂ b ts s hok ih
  refine ⟨hinv.1, hinv.2, ?_⟩
  intro v b ts s hs hact hfin hddl hvoted
  subst hs
  unfold cast_vote
  rw [if_neg (by simp), if_neg (by simp [hact]), if_neg (by simp [hfin]),
    if_neg (not_not_intro hddl), if_pos hvoted]

/-- A freshly created open task (all tallies zero, no voters). -/
def c3_t0 : VerificationTask :=
  { requester := 2, created_at := 0, voting_ends_at := 10, votes_for := 0,
    votes_against := 0, total_voting_power := 0, voters := [],
    is_finalized := false, result := false, reward_amount := 80 }

/-- A verifier with stake 2000 and reputation 100: voting power 200. -/
def c3_v : Verifier :=
  { addr := 1, stake := 2000, reputation_score := 100,
    total_verifications := 0, successful_verifications := 0,
    last_active := 0, is_active := true }

/-- `c3_t0` after verifier 1 votes in favor with power 200. -/
def c3_t1 : VerificationTask :=
  { requester := 2, created_at := 0, voting_ends_at := 10, votes_for := 200,
    votes_against := 0, total_voting_power := 200,
    voters :=
      [(1, { voter := 1, vote := true, voting_power := 200,
             timestamp := 1 })],
    is_finalized := false, result := false, reward_amount := 80 }

/-- C3 witness: the accounting invariant after one concrete successful
vote. -/
theorem C3_witness :
    c3_t1.votes_for + c3_t1.votes_against = c3_t1.total_voting_power :=
  (C3_vote_accounting c3_t0 c3_t1 rfl (by decide)
    (VoteSeq.step c3_t0 c3_t0 c3_t1 c3_v { c3_v with last_active := 1 }
      true 1 1 (VoteSeq.refl c3_t0) (by decide))).1

theorem update_reputation_success_eq (v : Verifier) :
    update_reputation v true
      = { v with reputation_score := min (v.reputation_score + 10) 1000 } := by
  unfold update_reputation
  rw [if_pos rfl]
  rcases Nat.lt_or_ge 1000 (v.reputation_score + 10) with h | h
  · rw [if_pos h]
    have hm : min (v.reputation_score + 10) 1000 = 1000 := by omega
    rw [hm]
  · rw [if_neg (by omega)]
    have hm : min (v.reputation_score + 10) 1000
        = v.reputation_score + 10 := by omega
    rw [hm]

theorem update_reputation_failure_eq (v : Verifier) :
    update_reputation v false
      = { v with reputation_score := v.reputation_score - 20 } := by
  unfold update_reputation
  rw [if_neg (by simp)]
  rcases Nat.lt_or_ge v.reputation_score 20 with h | h
  · rw [if_pos h]
    have hm : v.reputation_score - 20 = 0 := by omega
    rw [hm]
  · rw [if_neg (by omega)]

/-- Expected output of a paid `claim_reward` call: the proportional reward
leaves the pool, reputation goes up by 10 capped at 1000, both verification
counters increment. -/
def paid_out (net : Network) (v : Verifier) (task : VerificationTask)
    (vote : Vote) : ClaimOut :=
  { network :=
      { net with
          reward_pool := net.reward_pool
            - task.reward_amount * vote.voting_power
                / task.total_voting_power },
    verifier :=
      { v with
          reputation_score := min (v.reputation_score + 10) 1000
          successful_verifications := v.successful_verifications + 1
          total_verifications := v.total_verifications + 1 },
    payout :=
      task.reward_amount * vote.voting_power / task.total_voting_power }

theorem claim_reward_paid (net : Network) (v : Verifier)
    (task : VerificationTask) (vote : Vote)
    (hfin : task.is_finalized = true)
    (hv : lookupKey task.voters v.addr = some vote)
    (hmatch : vote.vote = task.result)
    (hr : 0 < task.reward_amount * vote.voting_power
        / task.total_voting_power)
    (hpool : task.reward_amount * vote.voting_power
        / task.total_voting_power ≤ net.reward_pool) :
    claim_reward net v task v.addr = .ok (paid_out net v task vote) := by
  unfold claim_reward
  rw [if_neg (by simp), if_neg (by simp [hfin])]
  split
  · next hnone => rw [hv] at hnone; cases hnone
  · next x hx =>
    rw [hv] at hx
    injection hx with hx
    subst hx
    rw [if_pos hmatch, if_pos ⟨hr, hpool⟩, update_reputation_success_eq]
    rfl

theorem claim_reward_unpaid (net : Network) (v : Verifier)
    (task : VerificationTask) (vote : Vote)
    (hfin : task.is_finalized = true)
    (hv : lookupKey task.voters v.addr = some vote)
    (hmatch : vote.vote = task.result)
    (hno : ¬ (0 < task.reward_amount * vote.voting_power
                / task.total_voting_power
              ∧ task.reward_amount * vote.voting_power
                / task.total_voting_power ≤ net.reward_pool)) :
    claim_reward net v task v.addr
      = .ok { network := net,
              verifier :=
                { v with
                    total_verifications := v.total_verifications + 1 },
              payout := 0 } := by
  unfold claim_reward
  rw [if_neg (by simp), if_neg (by simp [hfin])]
  split
  · next hnone => rw [hv] at hnone; cases hnone
  · next x hx =>
    rw [hv] at hx
    injection hx with hx
    subst hx
    rw [if_pos hmatch, if_neg hno]

theorem claim_reward_mismatch (net : Network) (v : Verifier)
    (task : VerificationTask) (vote : Vote)
    (hfin : task.is_finalized = true)
    (hv : lookupKey task.voters v.addr = some vote)
    (hmatch : vote.vote ≠ task.result) :
    claim_reward net v task v.addr
      = .ok { network := net,
              verifier :=
                { v with
                    reputation_score := v.reputation_score - 20
                    total_verifications := v.total_verifications + 1 },
              payout := 0 } := by
  unfold claim_reward
  rw [if_neg (by simp), if_neg (by simp [hfin])]
  split
  · next hnone => rw [hv] at hnone; cases hnone
  · next x hx =>
    rw [hv] at hx
    injection hx with hx
    subst hx
    rw [if_neg hmatch, update_reputation_failure_eq]

/-- A finalized task whose reward pool share is 0 (payment 1 gives
`reward_amount = 1·80/100 = 0`), with one recorded majority vote by
address 1. -/
def c2_task : VerificationTask :=
  { requester := 2, created_at := 0, voting_ends_at := 10, votes_for := 10,
    votes_against := 0, total_voting_power := 10,
    voters :=
      [(1, { voter := 1, vote := true, voting_power := 10, timestamp := 1 })],
    is_finalized := true, result := true, reward_amount := 0 }

def c2_v : Verifier :=
  { addr := 1, stake := MIN_STAKE, reputation_score := 100,
    total_verifications := 0, successful_verifications := 0,
    last_active := 0, is_active := true }

def c2_net : Network :=
  { verifier_count := 1, total_stake := MIN_STAKE, reward_pool := 1,
    verifier_index := [1] }

/-- C2 counterexample: verifier 1's vote matches the finalized result, yet
`claim_reward` leaves its reputation at 100 rather than incrementing it by
10, because the computed reward 0·10/10 = 0 is not positive — so the
claim's "in that case increments their reputation by 10" is false. -/
theorem C2_counterexample :
    (lookupKey c2_task.voters c2_v.addr).map Vote.vote
        = some c2_task.result
    ∧ c2_task.is_finalized = true
    ∧ c2_v.reputation_score = 100
    ∧ claim_reward c2_net c2_v c2_task 1
        = .ok { network := c2_net,
                verifier := { c2_v with total_verifications := 1 },
                payout := 0 } := by
  decide

/-- C2 (amended): for a finalized task and a verifier with a recorded vote,
a matching vote pays `rewardAmount × voterPower / totalPower` and increments
reputation by 10 (capped at 1000) exactly when that computed reward is
positive and the pool covers it; a matching vote with zero or uncovered
reward pays nothing and leaves reputation unchanged; a differing vote pays
nothing and decrements reputation by 20 (floored at 0; `Nat` subtraction is
exactly the code's floor). `total_verifications` increments in every
case. -/
theorem C2_claim_reward (net : Network) (v : Verifier)
    (task : VerificationTask) (s : Nat) (vote : Vote)
    (hs : s = v.addr) (hfin : task.is_finalized = true)
    (hv : lookupKey task.voters v.addr = some vote) :
    (vote.vote = task.result →
      (0 < task.reward_amount * vote.voting_power / task.total_voting_power
          ∧ task.reward_amount * vote.voting_power / task.total_voting_power
            ≤ net.reward_pool →
        claim_reward net v task s = .ok (paid_out net v task vote))
      ∧ (¬ (0 < task.reward_amount * vote.voting_power
              / task.total_voting_power
            ∧ task.reward_amount * vote.voting_power
              / task.total_voting_power ≤ net.reward_pool) →
        claim_reward net v task s
          = .ok { network := net,
                  verifier :=
                    { v with
                        total_verifications := v.total_verifications + 1 },
                  payout := 0 }))
    ∧ (vote.vote ≠ task.result →
        claim_reward net v task s
          = .ok { network := net,
                  verifier :=
                    { v with
                        reputation_score := v.reputation_score - 20
                        total_verifications := v.total_verifications + 1 },
                  payout := 0 }) := by
  subst hs
  refine ⟨fun hmatch => ⟨fun hpay => ?_, fun hno => ?_⟩, fun hmm => ?_⟩
  · exact claim_reward_paid net v task vote hfin hv hmatch hpay.1 hpay.2
  · exact claim_reward_unpaid net v task vote hfin hv hmatch hno
  · exact claim_reward_mismatch net v task vote hfin hv hmm

/-- A finalized task with one majority vote of power 10 and reward 80. -/
def c2w_task : VerificationTask :=
  { requester := 2, created_at := 0, voting_ends_at := 10, votes_for := 10,
    votes_against := 0, total_voting_power := 10,
    voters :=
      [(1, { voter := 1, vote := true, voting_power := 10, timestamp := 1 })],
    is_finalized := true, result := true, reward_amount := 80 }

def c2w_net : Network :=
  { verifier_count := 1, total_stake := MIN_STAKE, reward_pool := 200,
    verifier_index := [1] }

/-- C2 witness: the paid branch at concrete values — the full 80·10/10 = 80
is paid, the pool drops to 120, and reputation rises 100 → 110. -/
theorem C2_witness :
    claim_reward c2w_net c2_v c2w_task 1
      = .ok (paid_out c2w_net c2_v c2w_task
          { voter := 1, vote := true, voting_power := 10, timestamp := 1 }) :=
  ((C2_claim_reward c2w_net c2_v c2w_task 1
      { voter := 1, vote := true, voting_power := 10, timestamp := 1 }
      rfl rfl rfl).1 rfl).1 (by decide)

/-- C10: `claim_reward` keeps no per-claim state, so for a finalized task,
a verifier whose recorded vote matches the result, a positive covered
reward, and a pool holding at least twice that reward, two successive calls
both succeed, each pays the same proportional reward again, and the
verifier's `total_verifications` (and capped reputation) climb on each
call. -/
theorem C10_claim_reward_repeatable (net : Network) (v : Verifier)
    (task : VerificationTask) (s : Nat) (vote : Vote)
    (hs : s = v.addr) (hfin : task.is_finalized = true)
    (hv : lookupKey task.voters v.addr = some vote)
    (hmatch : vote.vote = task.result)
    (hr : 0 < task.reward_amount * vote.voting_power
        / task.total_voting_power)
    (hpool : 2 * (task.reward_amount * vote.voting_power
        / task.total_voting_power) ≤ net.reward_pool) :
    claim_reward net v task s = .ok (paid_out net v task vote)
    ∧ claim_reward (paid_out net v task vote).network
        (paid_out net v task vote).verifier task s
      = .ok (paid_out (paid_out net v task vote).network
          (paid_out net v task vote).verifier task vote)
    ∧ (paid_out net v task vote).payout
        = task.reward_amount * vote.voting_power / task.total_voting_power
    ∧ (paid_out (paid_out net v task vote).network
          (paid_out net v task vote).verifier task vote).payout
        = task.reward_amount * vote.voting_power / task.total_voting_power
    ∧ (paid_out (paid_out net v task vote).network
          (paid_out net v task vote).verifier task vote).network.reward_pool
        = net.reward_pool
          - 2 * (task.reward_amount * vote.voting_power
              / task.total_voting_power)
    ∧ (paid_out (paid_out net v task vote).network
          (paid_out net v task vote).verifier task
          vote).verifier.total_verifications
        = v.total_verifications + 2 := by
  subst hs
  refine ⟨claim_reward_paid net v task vote hfin hv hmatch hr (by omega),
    ?_, rfl, rfl, by simp [paid_out]; omega, by simp [paid_out]⟩
  exact claim_reward_paid (paid_out net v task vote).network
    (paid_out net v task vote).verifier task vote hfin hv hmatch hr
    (by simp [paid_out]; omega)

/-- C10 witness: with reward 80 fully covered twice by a pool of 200, both
claims pay 80 and the pool ends at 40. -/
theorem C10_witness :
    claim_reward c2w_net c2_v c2w_task 1
        = .ok (paid_out c2w_net c2_v c2w_task
            { voter := 1, vote := true, voting_power := 10, timestamp := 1 })
    ∧ claim_reward
          (paid_out c2w_net c2_v c2w_task
            { voter := 1, vote := true, voting_power := 10,
              timestamp := 1 }).network
          (paid_out c2w_net c2_v c2w_task
            { voter := 1, vote := true, voting_power := 10,
              timestamp := 1 }).verifier c2w_task 1
        = .ok (paid_out
            (paid_out c2w_net c2_v c2w_task
              { voter := 1, vote := true, voting_power := 10,
                timestamp := 1 }).network
            (paid_out c2w_net c2_v c2w_task
              { voter := 1, vote := true, voting_power := 10,
                timestamp := 1 }).verifier c2w_task
            { voter := 1, vote := true, voting_power := 10,
              timestamp := 1 }) :=
  ⟨(C10_claim_reward_repeatable c2w_net c2_v c2w_task 1
      { voter := 1, vote := true, voting_power := 10, timestamp := 1 }
      rfl rfl rfl rfl (by decide) (by decide)).1,
   (C10_claim_reward_repeatable c2w_net c2_v c2w_task 1
      { voter := 1, vote := true, voting_power := 10, timestamp := 1 }
      rfl rfl rfl rfl (by decide) (by decide)).2.1⟩

end VerificationNetwork

namespace ProvenanceRegistry

/-! ## `provenance_registry.move` -/

/-- One error constructor per Move abort code of
`provenance_registry.move`. -/
inductive RegErr where
  | NotAuthorized
  | ContentAlreadyRegistered
  | InvalidHash
  | ContentNotFound
  | InvalidMetadata
  | TransferNotAllowed
deriving Repr, DecidableEq

/-- `ContentProof` (strings dropped; `pid` is the object id, metadata keys
and values are numbered). -/
structure ContentProof where
  pid : Nat
  content_hash : List Nat
  creator : Nat
  current_owner : Nat
  registration_timestamp : Nat
  last_updated : Nat
  metadata : List (Nat × Nat)
  verification_count : Nat
  trust_score : Nat
  transferable : Bool
deriving Repr, DecidableEq

/-- `TransferCap`. -/
structure TransferCap where
  content_proof_id : Nat
  from_addr : Nat
  to_addr : Nat
  expires_at : Nat
deriving Repr, DecidableEq

/-- `Registry` (the content-hash index; `content_index` keeps the
registered hashes with their proof ids). -/
structure Registry where
  content_count : Nat
  content_index : List (List Nat × Nat)
deriving Repr, DecidableEq

/-- `register_content`: nonempty hash, unique in the index; seeds the trust
score at 50 and sets the creator as owner. -/
def register_content (reg : Registry) (content_hash : List Nat)
    (pid sender timestamp : Nat) : Except RegErr (Registry × ContentProof) :=
  if ¬ 0 < content_hash.length then .error .InvalidHash
  else if (reg.content_index.map Prod.fst).contains content_hash then
    .error .ContentAlreadyRegistered
  else
    .ok ({ content_count := reg.content_count + 1,
           content_index := (content_hash, pid) :: reg.content_index },
         { pid, content_hash, creator := sender, current_owner := sender,
           registration_timestamp := timestamp, last_updated := timestamp,
           metadata := [], verification_count := 0, trust_score := 50,
           transferable := true })

/-- `update_metadata`: owner-gated; replaces any existing value at the
key. -/
def update_metadata (p : ContentProof) (key value timestamp sender : Nat) :
    Except RegErr ContentProof :=
  if sender ≠ p.current_owner then .error .NotAuthorized
  else
    .ok { p with
            metadata := (key, value) :: p.metadata.filter (fun q => q.1 ≠ key)
            last_updated := timestamp }

/-- `record_verification`: any caller; requires the new score ≤ 100 and
blends 30% old / 70% new. -/
def record_verification (p : ContentProof) (new_trust_score : Nat)
    (timestamp : Nat) : Except RegErr ContentProof :=
  if ¬ new_trust_score ≤ 100 then .error .InvalidMetadata
  else
    .ok { p with
            verification_count := p.verification_count + 1
            trust_score :=
              (p.trust_score * (10 - 7) + new_trust_score * 7) / 10
            last_updated := timestamp }

/-- `create_transfer_cap`: owner-gated, requires `transferable`; the cap
expires `expiry_ms` after now. -/
def create_transfer_cap (p : ContentProof) (to_addr expiry_ms timestamp
    sender : Nat) : Except RegErr TransferCap :=
  if sender ≠ p.current_owner then .error .NotAuthorized
  else if ¬ p.transferable then .error .TransferNotAllowed
  else
    .ok { content_proof_id := p.pid, from_addr := p.current_owner, to_addr,
          expires_at := timestamp + expiry_ms }

/-- `execute_transfer`: checks cap/content id match, that the sender is the
cap's recipient, that the cap is unexpired, and that ownership has not
moved — but never re-checks `transferable`. -/
def execute_transfer (p : ContentProof) (cap : TransferCap)
    (timestamp sender : Nat) : Except RegErr ContentProof :=
  if cap.content_proof_id ≠ p.pid then .error .NotAuthorized
  else if sender ≠ cap.to_addr then .error .NotAuthorized
  else if ¬ timestamp ≤ cap.expires_at then .error .NotAuthorized
  else if p.current_owner ≠ cap.from_addr then .error .NotAuthorized
  else
    .ok { p with current_owner := cap.to_addr, last_updated := timestamp }

/-- `set_transferable`: owner-gated toggle. -/
def set_transferable (p : ContentProof) (transferable : Bool)
    (timestamp sender : Nat) : Except RegErr ContentProof :=
  if sender ≠ p.current_owner then .error .NotAuthorized
  else .ok { p with transferable, last_updated := timestamp }

/-- `admin_pause_transfers`: forces `transferable := false` (the admin
capability is the caller's authorization). -/
def admin_pause_transfers (p : ContentProof) (timestamp : Nat) :
    ContentProof :=
  { p with transferable := false, last_updated := timestamp }

/-- `admin_override_trust_score`: rejects scores above 100. -/
def admin_override_trust_score (p : ContentProof) (new_score timestamp :
    Nat) : Except RegErr ContentProof :=
  if ¬ new_score ≤ 100 then .error .InvalidMetadata
  else .ok { p with trust_score := new_score, last_updated := timestamp }

/-- All reachable `ContentProof` states: created by `register_content`,
mutated only by the module's entry functions modelled above. -/
inductive ProofReachable : ContentProof → Prop where
  | registered (reg reg' : Registry) (h : List Nat) (pid sender ts : Nat)
      (p : ContentProof)
      (hok : register_content reg h pid sender ts = .ok (reg', p)) :
      ProofReachable p
  | metadata_updated (p p' : ContentProof) (k v ts s : Nat)
      (hp : ProofReachable p) (hok : update_metadata p k v ts s = .ok p') :
      ProofReachable p'
  | verified (p p' : ContentProof) (n ts : Nat) (hp : ProofReachable p)
      (hok : record_verification p n ts = .ok p') : ProofReachable p'
  | transferred (p p' : ContentProof) (cap : TransferCap) (ts s : Nat)
      (hp : ProofReachable p) (hok : execute_transfer p cap ts s = .ok p') :
      ProofReachable p'
  | transferable_set (p p' : ContentProof) (b : Bool) (ts s : Nat)
      (hp : ProofReachable p) (hok : set_transferable p b ts s = .ok p') :
      ProofReachable p'
  | transfers_paused (p : ContentProof) (ts : Nat) (hp : ProofReachable p) :
      ProofReachable (admin_pause_transfers p ts)
  | score_overridden (p p' : ContentProof) (n ts : Nat)
      (hp : ProofReachable p)
      (hok : admin_override_trust_score p n ts = .ok p') : ProofReachable p'

/-- C4: every reachable `ContentProof` keeps its trust score in [0, 100]:
registration seeds 50, `record_verification` blends
`(3·old + 7·new) / 10` with `new ≤ 100` enforced, and the admin override
rejects scores above 100. -/
theorem C4_trust_score_in_range (p : ContentProof)
    (hp : ProofReachable p) : 0 ≤ p.trust_score ∧ p.trust_score ≤ 100 := by
  refine ⟨Nat.zero_le _, ?_⟩
  induction hp with
  | registered reg reg' h pid sender ts p hok =>
      unfold register_content at hok
      split at hok
      · exact absurd hok (by simp)
      · split at hok
        · exact absurd hok (by simp)
        · simp only [Except.ok.injEq, Prod.mk.injEq] at hok
          obtain ⟨_, h2⟩ := hok
          subst h2
          norm_num
  | metadata_updated p p' k v ts s hp hok ih =>
      unfold update_metadata at hok
      split at hok
      · exact absurd hok (by simp)
      · injection hok with hok
        subst hok
        exact ih
  | verified p p' n ts hp hok ih =>
      unfold record_verification at hok
      split at hok
      · exact absurd hok (by simp)
      · next hn =>
        injection hok with hok
        subst hok
        show (p.trust_score * (10 - 7) + n * 7) / 10 ≤ 100
        have hb : p.trust_score * (10 - 7) + n * 7 ≤ 1000 := by omega
        calc (p.trust_score * (10 - 7) + n * 7) / 10
            ≤ 1000 / 10 := Nat.div_le_div_right hb
          _ = 100 := by norm_num
  | transferred p p' cap ts s hp hok ih =>
      unfold execute_transfer at hok
      split at hok
      · exact absurd hok (by simp)
      · split at hok
        · exact absurd hok (by simp)
        · split at hok
          · exact absurd hok (by simp)
          · split at hok
            · exact absurd hok (by simp)
            · injection hok with hok
              subst hok
              exact ih
  | transferable_set p p' b ts s hp hok ih =>
      unfold set_transferable at hok
      split at hok
      · exact absurd hok (by simp)
      · injection hok with hok
        subst hok
        exact ih
  | transfers_paused p ts hp ih => exact ih
  | score_overridden p p' n ts hp hok ih =>
      unfold admin_override_trust_score at hok
      split at hok
      · exact absurd hok (by simp)
      · next hn =>
        injection hok with hok
        subst hok
        show n ≤ 100
        omega

/-- The `ContentProof` as `register_content` creates it for content hash
[1], owner 1, object id 7. -/
def c4_p0 : ContentProof :=
  { pid := 7, content_hash := [1], creator := 1, current_owner := 1,
    registration_timestamp := 0, last_updated := 0, metadata := [],
    verification_count := 0, trust_score := 50, transferable := true }

/-- `c4_p0` after `record_verification` with a new score of 100: the blend
gives (50·3 + 100·7)/10 = 85. -/
def c4_p1 : ContentProof :=
  { c4_p0 with
      verification_count := 1
      trust_score := 85
      last_updated := 3 }

/-- C4 witness: the trust score after a concrete registration followed by a
concrete maximal verification report stays within [0, 100]. -/
theorem C4_witness : c4_p1.trust_score ≤ 100 :=
  (C4_trust_score_in_range c4_p1
    (ProofReachable.verified c4_p0 c4_p1 100 3
      (ProofReachable.registered { content_count := 0, content_index := [] }
        { content_count := 1, content_index := [([1], 7)] } [1] 7 1 0 c4_p0
        (by decide))
      (by decide))).2

/-- C9: `execute_transfer` never re-checks `transferable`: a cap whose
content id matches, redeemed by its recipient before expiry while the
`from` party still owns the proof, succeeds and moves ownership even when
`transferable = false` at redemption time — transferability is checked
only at `create_transfer_cap` time. -/
theorem C9_execute_transfer_ignores_transferable (p : ContentProof)
    (cap : TransferCap) (ts s : Nat)
    (hid : cap.content_proof_id = p.pid) (hs : s = cap.to_addr)
    (hexp : ts ≤ cap.expires_at) (hown : p.current_owner = cap.from_addr)
    (hnt : p.transferable = false) :
    execute_transfer p cap ts s
      = .ok { p with current_owner := cap.to_addr, last_updated := ts }
    ∧ ({ p with
          current_owner := cap.to_addr
          last_updated := ts } : ContentProof).transferable = false := by
  subst hs
  constructor
  · unfold execute_transfer
    rw [if_neg (not_not_intro hid), if_neg (by simp),
      if_neg (not_not_intro hexp), if_neg (not_not_intro hown)]
  · simpa using hnt

/-- A proof whose transfers are disabled (as after
`admin_pause_transfers` or `set_transferable(false)`). -/
def c9_p : ContentProof :=
  { pid := 7, content_hash := [1], creator := 1, current_owner := 1,
    registration_timestamp := 0, last_updated := 0, metadata := [],
    verification_count := 0, trust_score := 50, transferable := false }

/-- An unexpired cap for `c9_p` issued to address 2. -/
def c9_cap : TransferCap :=
  { content_proof_id := 7, from_addr := 1, to_addr := 2, expires_at := 10 }

/-- C9 witness: the transfer to address 2 succeeds at time 5 although
`c9_p.transferable = false`. -/
theorem C9_witness :
    execute_transfer c9_p c9_cap 5 2
      = .ok { c9_p with current_owner := 2, last_updated := 5 } :=
  (C9_execute_transfer_ignores_transferable c9_p c9_cap 5 2 rfl rfl
    (by decide) rfl rfl).1

end ProvenanceRegistry

namespace AccessControl

/-! ## `access_control.move` -/

def ROLE_OWNER : Nat := 0
def ROLE_ADMIN : Nat := 1
def ROLE_VIEWER : Nat := 2
def ROLE_VERIFIER : Nat := 3

/-- One error constructor per Move abort code of `access_control.move`. -/
inductive AcErr where
  | NotAuthorized
  | PolicyNotFound
  | InvalidCondition
  | AccessDenied
  | PolicyExpired
  | AlreadyGranted
  | InvalidRole
deriving Repr, DecidableEq

/-- `AccessPolicy` (the fields grant/revoke read and write; role sets as
lists of addresses). -/
structure AccessPolicy where
  pid : Nat
  owner : Nat
  last_updated : Nat
  is_public : Bool
  admins : List Nat
  viewers : List Nat
  verifiers : List Nat
deriving Repr, DecidableEq

/-- `AccessGrant` (the key fragment as a number). -/
structure AccessGrant where
  policy_id : Nat
  granted_to : Nat
  granted_by : Nat
  role : Nat
  granted_at : Nat
  expires_at : Nat
  is_revoked : Bool
  decryption_key_fragment : Nat
deriving Repr, DecidableEq

/-- `grant_access`: owner- or admin-gated; `expiry_duration_ms = 0` means
no expiry; inserts the grantee into the matching role set and issues an
unrevoked grant. -/
def grant_access (pol : AccessPolicy) (to_addr role expiry_duration_ms
    key_fragment ts sender : Nat) :
    Except AcErr (AccessPolicy × AccessGrant) :=
  if ¬ (sender = pol.owner ∨ pol.admins.contains sender) then
    .error .NotAuthorized
  else if ¬ role ≤ ROLE_VERIFIER then .error .InvalidRole
  else
    let expires_at :=
      if expiry_duration_ms = 0 then 0 else ts + expiry_duration_ms
    let pol1 :=
      if role = ROLE_ADMIN then
        if ¬ pol.admins.contains to_addr then
          { pol with admins := to_addr :: pol.admins }
        else pol
      else if role = ROLE_VIEWER then
        if ¬ pol.viewers.contains to_addr then
          { pol with viewers := to_addr :: pol.viewers }
        else pol
      else if role = ROLE_VERIFIER then
        if ¬ pol.verifiers.contains to_addr then
          { pol with verifiers := to_addr :: pol.verifiers }
        else pol
      else pol
    .ok ({ pol1 with last_updated := ts },
      { policy_id := pol.pid, granted_to := to_addr, granted_by := sender,
        role,
        granted_at := ts, expires_at, is_revoked := false,
        decryption_key_fragment := key_fragment })

/-- `revoke_access`: owner or original granter only; marks the grant
revoked and removes the grantee from the matching role set. -/
def revoke_access (pol : AccessPolicy) (g : AccessGrant) (sender ts : Nat) :
    Except AcErr (AccessPolicy × AccessGrant) :=
  if ¬ (sender = pol.owner ∨ sender = g.granted_by) then
    .error .NotAuthorized
  else
    let pol1 :=
      if g.role = ROLE_ADMIN ∧ pol.admins.contains g.granted_to then
        { pol with admins := pol.admins.erase g.granted_to }
      else if g.role = ROLE_VIEWER ∧ pol.viewers.contains g.granted_to then
        { pol with viewers := pol.viewers.erase g.granted_to }
      else if g.role = ROLE_VERIFIER
          ∧ pol.verifiers.contains g.granted_to then
        { pol with verifiers := pol.verifiers.erase g.granted_to }
      else pol
    .ok ({ pol1 with last_updated := ts }, { g with is_revoked := true })

/-- `is_access_valid`: not revoked, and either no expiry (0) or not yet
past it. -/
def is_access_valid (g : AccessGrant) (current_time : Nat) : Bool :=
  !g.is_revoked && (g.expires_at == 0 || decide (current_time ≤ g.expires_at))

/-- Zero or more successful `revoke_access` steps on a grant —
`revoke_access` is the only operation of the module that mutates an
existing grant. -/
inductive GrantSeq : AccessGrant → AccessGrant → Prop where
  | refl (g : AccessGrant) : GrantSeq g g
  | step (g₁ g₂ : AccessGrant) (pol pol' : AccessPolicy) (s ts : Nat)
      (hseq : GrantSeq g₀ g₁)
      (hok : revoke_access pol g₁ s ts = .ok (pol', g₂)) : GrantSeq g₀ g₂

theorem revoke_access_ok_revoked (pol pol' : AccessPolicy)
    (g g' : AccessGrant) (s ts : Nat)
    (hok : revoke_access pol g s ts = .ok (pol', g')) :
    g'.is_revoked = true := by
  unfold revoke_access at hok
  split at hok
  · exact absurd hok (by simp)
  · simp only [Except.ok.injEq, Prod.mk.injEq] at hok
    obtain ⟨_, h2⟩ := hok
    subst h2
    rfl

theorem grant_seq_preserves_revoked (g g' : AccessGrant)
    (hseq : GrantSeq g g') (hrev : g.is_revoked = true) :
    g'.is_revoked = true := by
  induction hseq with
  | refl => exact hrev
  | step g₁ g₂ pol pol' s ts hseq hok ih =>
      exact revoke_access_ok_revoked pol pol' g₁ g₂ s ts hok

/-- C7: `is_access_valid(grant, now)` is true exactly when the grant is
not revoked and (no expiry or `now ≤ expires_at`); and once a
`revoke_access` has succeeded, any grant reached by further
`revoke_access` steps (the only grant-mutating operation) is invalid at
every timestamp — even timestamps before the original expiry. -/
theorem C7_grant_validity (g : AccessGrant) (now : Nat) :
    (is_access_valid g now = true
      ↔ g.is_revoked = false
        ∧ (g.expires_at = 0 ∨ now ≤ g.expires_at))
    ∧ (∀ pol pol' : AccessPolicy, ∀ g' g'' : AccessGrant, ∀ s ts t : Nat,
        revoke_access pol g s ts = .ok (pol', g') → GrantSeq g' g'' →
        is_access_valid g'' t = false) := by
  constructor
  · unfold is_access_valid
    cases hrev : g.is_revoked <;> simp [hrev]
  · intro pol pol' g' g'' s ts t hok hseq
    have hrev : g''.is_revoked = true :=
      grant_seq_preserves_revoked g' g'' hseq
        (revoke_access_ok_revoked pol pol' g g' s ts hok)
    unfold is_access_valid
    rw [hrev]
    rfl

/-- A policy owned by address 1 with viewer 2. -/
def c7_pol : AccessPolicy :=
  { pid := 3, owner := 1, last_updated := 0, is_public := false,
    admins := [], viewers := [2], verifiers := [] }

/-- A viewer grant to address 2 expiring at time 100, not revoked. -/
def c7_g : AccessGrant :=
  { policy_id := 3, granted_to := 2, granted_by := 1, role := ROLE_VIEWER,
    granted_at := 0, expires_at := 100, is_revoked := false,
    decryption_key_fragment := 9 }

/-- C7 witness: after the owner revokes `c7_g` at time 7, the grant is
invalid at time 50, well before its original expiry of 100. -/
theorem C7_witness :
    is_access_valid { c7_g with is_revoked := true } 50 = false :=
  (C7_grant_validity c7_g 50).2 c7_pol
    { c7_pol with viewers := [], last_updated := 7 }
    { c7_g with is_revoked := true } { c7_g with is_revoked := true } 1 7 50
    (by decide) (GrantSeq.refl { c7_g with is_revoked := true })

end AccessControl
